import Mathlib

/-!
Verification of the manufacturing data-access layer (SQLite demo).

This file gives a shallow embedding of `src/dal.py` and `src/queries.py`:
each SQL query / Python function becomes a Lean function over an explicit
relational state `DB`.  Modelling conventions:

* Timestamps stay `String`s, exactly as they are stored.  SQL comparisons on
  them (`BINARY` collation, i.e. byte order) and Python string comparisons
  (code-point order) coincide with lexicographic order on the character list
  for UTF-8 encoded strings; both are modelled by `strLe`.
* `datetime.strptime(s, "%Y-%m-%dT%H:%M:%SZ")` and SQLite's
  `strftime(s)` on the fixed-width UTC format are modelled by
  `parseInstant`, a full Gregorian-calendar parser returning seconds since
  the Unix epoch, `none` on a malformed string (strptime raises there;
  strftime yields NULL, handled at each use site).
* Python float arithmetic is modelled by exact rational arithmetic (`ℚ`);
  `round(x, k)` is modelled by `roundTo k` (rounding half away from the
  floor; the float tie-breaking of CPython differs only on exact ties).
* Python exceptions become an `Except DalError` result.  The source raises
  `ValueError` on every failing path; the constructors of `DalError` record
  which check failed (spec taxonomy: validation vs not-found), which in the
  source is carried by the message text of the raise site.
* SQLite assigns `lastrowid = max existing id + 1` for fresh
  `INTEGER PRIMARY KEY` rows, modelled by `newWorkOrderId`.
* `ORDER BY` is modelled with `List.insertionSort`; the claims only use
  that the output is sorted and a permutation of the unsorted rows.
-/

namespace Mfg

/-! Section: String order (SQLite BINARY collation / Python string comparison) -/

/-- Lexicographic order on strings via their character lists. -/
def strLe (a b : String) : Prop := a.data ≤ b.data

instance : ∀ a b : String, Decidable (strLe a b) :=
  fun a b => inferInstanceAs (Decidable (a.data ≤ b.data))

/-! Section: Time parsing: `datetime.strptime(s, "%Y-%m-%dT%H:%M:%SZ")` -/

/-- Numeric value of a decimal digit character. -/
def d2n (c : Char) : Nat := c.toNat - 48

/-- Gregorian leap-year test. -/
def isLeap (y : Nat) : Bool := (y % 4 == 0 && y % 100 != 0) || y % 400 == 0

/-- Length of month `m` in year `y`. -/
def daysInMonth (y m : Nat) : Nat :=
  if m == 2 then (if isLeap y then 29 else 28)
  else if m == 4 || m == 6 || m == 9 || m == 11 then 30
  else 31

/-- Days in year `y` before the first day of month `m`. -/
def daysBeforeMonth (y m : Nat) : Nat :=
  ((List.range (m - 1)).map (fun k => daysInMonth y (k + 1))).sum

/-- Proleptic Gregorian ordinal: day number of `y-m-d` with `0001-01-01 = 1`. -/
def toOrdinal (y m d : Nat) : Nat :=
  365 * (y - 1) + ((y - 1) / 4 - (y - 1) / 100 + (y - 1) / 400) + daysBeforeMonth y m + d

/-- Ordinal of the Unix epoch `1970-01-01`. -/
def epochOrdinal : Nat := 719163

/-- Parse a UTC timestamp in the fixed format `YYYY-MM-DDTHH:MM:SSZ` into
seconds since the Unix epoch; `none` when the string is malformed or the
calendar fields are out of range. -/
def parseInstant (s : String) : Option Int :=
  match s.data with
  | [y1, y2, y3, y4, c1, mo1, mo2, c2, d1, d2, c3, h1, h2, c4, mi1, mi2, c5, s1, s2, c6] =>
    if [y1, y2, y3, y4, mo1, mo2, d1, d2, h1, h2, mi1, mi2, s1, s2].all Char.isDigit
        && c1 == '-' && c2 == '-' && c3 == 'T' && c4 == ':' && c5 == ':' && c6 == 'Z' then
      let y := ((d2n y1 * 10 + d2n y2) * 10 + d2n y3) * 10 + d2n y4
      let mo := d2n mo1 * 10 + d2n mo2
      let d := d2n d1 * 10 + d2n d2
      let h := d2n h1 * 10 + d2n h2
      let mi := d2n mi1 * 10 + d2n mi2
      let se := d2n s1 * 10 + d2n s2
      if decide (1 ≤ y) && decide (1 ≤ mo) && decide (mo ≤ 12) && decide (1 ≤ d)
          && decide (d ≤ daysInMonth y mo) && decide (h ≤ 23) && decide (mi ≤ 59)
          && decide (se ≤ 59) then
        some (((toOrdinal y mo d : Int) - (epochOrdinal : Int)) * 86400
          + ((h * 3600 + mi * 60 + se : Nat) : Int))
      else none
    else none
  | _ => none

/-- Parsed instant of a string known to be well formed (`0` as a dummy on
malformed input; every use is guarded by a `(parseInstant _).isSome`
hypothesis). -/
def instantOf (s : String) : Int := (parseInstant s).getD 0

/-! Section: Rounding: Python `round(x, k)` on the model's exact rationals -/

/-- Round `x` to `k` decimal places. -/
def roundTo (k : Nat) (x : ℚ) : ℚ :=
  ((round (x * (10 : ℚ) ^ k) : ℤ) : ℚ) / (10 : ℚ) ^ k

/-! Section: Relational state (schema of `sql/001_schema.sql` as used by the code) -/

structure Product where
  id : Nat
  name : String
deriving DecidableEq

structure Machine where
  id : Nat
  name : String
deriving DecidableEq

structure WorkOrder where
  id : Nat
  product_id : Nat
  plant_id : Nat
  planned_qty : Int
  status : String
  planned_start : String
  planned_end : String
  machine_id : Option Nat
deriving DecidableEq

structure Operation where
  id : Nat
  work_order_id : Nat
  machine_id : Nat
  op_start : String
  op_end : String
  good_qty : Int
  scrap_qty : Int
  defect_code : Option String
deriving DecidableEq

structure DowntimeEvent where
  machine_id : Nat
  dt_start : String
  dt_end : String
deriving DecidableEq

structure DB where
  products : List Product
  machines : List Machine
  work_orders : List WorkOrder
  operations : List Operation
  downtime_events : List DowntimeEvent
deriving DecidableEq

/-- Error channel of the data-access layer.  The Python source raises
`ValueError` everywhere; the constructor records which kind of check failed
(distinguished in the source by the raise site and message). -/
inductive DalError where
  | validationError : String → DalError
  | notFoundError : String → DalError
deriving DecidableEq

instance {ε α : Type} [DecidableEq ε] [DecidableEq α] : DecidableEq (Except ε α) := fun x y =>
  match x, y with
  | .ok a, .ok b => if h : a = b then isTrue (by rw [h]) else isFalse (by simp [h])
  | .ok _, .error _ => isFalse (by simp)
  | .error _, .ok _ => isFalse (by simp)
  | .error a, .error b => if h : a = b then isTrue (by rw [h]) else isFalse (by simp [h])

/-! Section: Shared query fragments -/

/-- Fully-contained filter on operations:
`o.op_start >= start AND o.op_end <= end` (string comparison, as in SQL). -/
def containedOp (startD endD : String) (o : Operation) : Bool :=
  decide (strLe startD o.op_start) && decide (strLe o.op_end endD)

/-- Fully-contained filter on downtime events:
`dt_start >= start AND dt_end <= end`. -/
def containedDt (startD endD : String) (d : DowntimeEvent) : Bool :=
  decide (strLe startD d.dt_start) && decide (strLe d.dt_end endD)

/-- Option-valued `mapM`, written recursively so the kernel can evaluate it
and proofs can unfold it; models a Python loop that may raise on any row. -/
def mapMO {α β : Type} (f : α → Option β) : List α → Option (List β)
  | [] => some []
  | a :: l =>
    match f a, mapMO f l with
    | some b, some r => some (b :: r)
    | _, _ => none

/-! Section: `dal.get_product_summary` -/

structure ProductSummary where
  product_id : Nat
  product_name : String
  good_qty : Int
  scrap_qty : Int
  num_orders : Nat
deriving DecidableEq

/-- Join `operations o JOIN work_orders w ON w.id = o.work_order_id`
restricted to `w.product_id = pid` and the fully-contained window, used by
both aggregate queries of `get_product_summary`. -/
def productOps (db : DB) (pid : Nat) (startD endD : String) :
    List (WorkOrder × Operation) :=
  (db.operations.filter (containedOp startD endD)).flatMap (fun o =>
    (db.work_orders.filter (fun w => w.id == o.work_order_id && w.product_id == pid)).map
      (fun w => (w, o)))

/-- Model of `dal.get_product_summary`. -/
def get_product_summary (db : DB) (product_name startD endD : String) :
    Except DalError ProductSummary :=
  match db.products.find? (fun p => p.name == product_name) with
  | none => .error (.notFoundError "Product not found")
  | some product =>
    let rows := productOps db product.id startD endD
    .ok ⟨product.id, product.name,
      (rows.map (fun x => x.2.good_qty)).sum,
      (rows.map (fun x => x.2.scrap_qty)).sum,
      ((rows.map (fun x => x.1.id)).dedup).length⟩

/-! Section: WIP listing: `dal.get_wip_orders` and `queries.list_wip` -/

structure WipRow where
  id : Nat
  product : String
  planned_qty : Int
  status : String
  planned_start : String
  planned_end : String
  machine_id : Option Nat
deriving DecidableEq

/-- The WHERE clause of the WIP query:
`status = 'in_progress' OR (now >= planned_start AND now <= planned_end
AND status NOT IN ('completed','cancelled'))`. -/
def wipCond (now : String) (w : WorkOrder) : Bool :=
  w.status == "in_progress"
    || (decide (strLe w.planned_start now) && decide (strLe now w.planned_end)
        && !(w.status == "completed" || w.status == "cancelled"))

/-- Output row of the WIP query for a work order joined with its product. -/
def mkWipRow (w : WorkOrder) (p : Product) : WipRow :=
  ⟨w.id, p.name, w.planned_qty, w.status, w.planned_start, w.planned_end, w.machine_id⟩

/-- `ORDER BY w.planned_start` comparison. -/
def wipOrder (a b : WipRow) : Prop := strLe a.planned_start b.planned_start

instance : DecidableRel wipOrder :=
  fun a b => inferInstanceAs (Decidable (strLe a.planned_start b.planned_start))

instance : IsTrans WipRow wipOrder where
  trans _ _ _ h1 h2 := le_trans h1 h2

instance : IsTotal WipRow wipOrder where
  total a b := le_total a.planned_start.data b.planned_start.data

/-- Model of `dal.get_wip_orders`. -/
def get_wip_orders (db : DB) (now : String) : List WipRow :=
  List.insertionSort wipOrder
    ((db.work_orders.filter (wipCond now)).flatMap (fun w =>
      (db.products.filter (fun p => p.id == w.product_id)).map (fun p => mkWipRow w p)))

/-- Model of `queries.list_wip`; the SQL text is identical to the one in
`dal.get_wip_orders`. -/
def list_wip (db : DB) (now : String) : List WipRow :=
  List.insertionSort wipOrder
    ((db.work_orders.filter (wipCond now)).flatMap (fun w =>
      (db.products.filter (fun p => p.id == w.product_id)).map (fun p => mkWipRow w p)))

/-! Section: `dal.get_machine_utilization` -/

structure UtilRow where
  machine_id : Nat
  machine_name : String
  runtime_hours : ℚ
  available_hours : ℚ
  downtime_hours : ℚ
  utilization : ℚ
deriving DecidableEq

/-- Clamped runtime seconds of one operation:
`max(0.0, (strptime(op_end) - strptime(op_start)).total_seconds())`. -/
def opSecondsDal (o : Operation) : Option ℚ :=
  match parseInstant o.op_start, parseInstant o.op_end with
  | some s, some e => some (max 0 ((e - s : ℤ) : ℚ))
  | _, _ => none

/-- Clamped downtime hours of one event:
`max(0.0, (strptime(dt_end) - strptime(dt_start)).total_seconds()) / 3600.0`. -/
def dtHoursDal (d : DowntimeEvent) : Option ℚ :=
  match parseInstant d.dt_start, parseInstant d.dt_end with
  | some s, some e => some (max 0 ((e - s : ℤ) : ℚ) / 3600)
  | _, _ => none

/-- Divide-by-zero guard of both utilization variants:
`runtime / available if available > 0 else 0.0`. -/
def utilizationOf (runtime available : ℚ) : ℚ :=
  if 0 < available then runtime / available else 0

/-- Per-machine body of the loop in `dal.get_machine_utilization`:
`total` is the precomputed window length in hours. -/
def dalMachineRow (db : DB) (startD endD : String) (adjusted : Bool) (total : ℚ)
    (m : Machine) : Option UtilRow :=
  let ops := db.operations.filter (fun o => o.machine_id == m.id && containedOp startD endD o)
  match mapMO opSecondsDal ops with
  | none => none
  | some secs =>
    let runtime := secs.sum / 3600
    if adjusted then
      let dts := db.downtime_events.filter
        (fun d => d.machine_id == m.id && containedDt startD endD d)
      match mapMO dtHoursDal dts with
      | none => none
      | some dhs =>
        let downtime := dhs.sum
        let available := max 0 (total - downtime)
        some ⟨m.id, m.name, roundTo 2 runtime, roundTo 2 available, roundTo 2 downtime,
          roundTo 4 (utilizationOf runtime available)⟩
    else
      some ⟨m.id, m.name, roundTo 2 runtime, roundTo 2 total, roundTo 2 0,
        roundTo 4 (utilizationOf runtime total)⟩

/-- Model of `dal.get_machine_utilization`. -/
def get_machine_utilization (db : DB) (startD endD : String) (adjusted : Bool) :
    Option (List UtilRow) :=
  match parseInstant startD, parseInstant endD with
  | some ps, some pe =>
    mapMO (dalMachineRow db startD endD adjusted (max 0 (((pe - ps : ℤ) : ℚ) / 3600)))
      db.machines
  | _, _ => none

/-! Section: `dal.create_work_order` -/

/-- SQLite `lastrowid` for a fresh `INTEGER PRIMARY KEY` row: one more than
the largest existing id. -/
def newWorkOrderId (db : DB) : Nat :=
  db.work_orders.foldl (fun acc w => max acc w.id) 0 + 1

/-- The INSERT of `create_work_order`: status `'planned'`, `plant_id = 1`. -/
def insertPlanned (db : DB) (product_id : Nat) (planned_qty : Int)
    (planned_start planned_end : String) (machine_id : Option Nat) :
    Except DalError Nat × DB :=
  (.ok (newWorkOrderId db),
    { db with work_orders := db.work_orders ++
        [⟨newWorkOrderId db, product_id, 1, planned_qty, "planned",
          planned_start, planned_end, machine_id⟩] })

/-- Model of `dal.create_work_order`.  Returns the result together with the
datastore state after the call (unchanged on every failing path: the
validations run before the INSERT, and the transaction commits only at the
end of the `with` block). -/
def create_work_order (db : DB) (product_id : Nat) (planned_qty : Int)
    (planned_start planned_end : String) (machine_id : Option Nat) :
    Except DalError Nat × DB :=
  if planned_qty ≤ 0 then
    (.error (.validationError "planned_qty must be > 0"), db)
  else if decide (strLe planned_end planned_start) then
    (.error (.validationError "planned_start must be < planned_end"), db)
  else
    match db.products.find? (fun p => p.id == product_id) with
    | none => (.error (.notFoundError "product_id not found"), db)
    | some _ =>
      match machine_id with
      | some mid =>
        match db.machines.find? (fun m => m.id == mid) with
        | none => (.error (.notFoundError "machine_id not found"), db)
        | some _ => insertPlanned db product_id planned_qty planned_start planned_end machine_id
      | none => insertPlanned db product_id planned_qty planned_start planned_end machine_id

/-! Section: `queries.product_output_by_month` -/

structure MonthRow where
  product_name : String
  good_qty : Int
  scrap_qty : Int
  num_orders : Nat
deriving DecidableEq

/-- `o.op_start LIKE 'YYYY-MM%'`: for a pattern that is a literal followed by
a single trailing `%` wildcard (the only shape the source builds, digits and
dashes so SQLite's ASCII case folding is vacuous), LIKE is a prefix test. -/
def monthMatch (month : String) (o : Operation) : Bool :=
  month.data.isPrefixOf o.op_start.data

/-- The joined rows of `product_output_by_month`: the `WHERE o.op_start LIKE ?`
filter discards the NULL-extended rows of both LEFT JOINs, so the join is
effectively inner. -/
def monthJoin (db : DB) (month : String) : List (Product × WorkOrder × Operation) :=
  db.products.flatMap (fun p =>
    (db.work_orders.filter (fun w => w.product_id == p.id)).flatMap (fun w =>
      (db.operations.filter (fun o => o.work_order_id == w.id && monthMatch month o)).map
        (fun o => (p, w, o))))

/-- `ORDER BY p.name` comparison. -/
def monthRowOrder (a b : MonthRow) : Prop := strLe a.product_name b.product_name

instance : DecidableRel monthRowOrder :=
  fun a b => inferInstanceAs (Decidable (strLe a.product_name b.product_name))

instance : IsTrans MonthRow monthRowOrder where
  trans _ _ _ h1 h2 := le_trans h1 h2

instance : IsTotal MonthRow monthRowOrder where
  total a b := le_total a.product_name.data b.product_name.data

/-- Model of `queries.product_output_by_month`. -/
def product_output_by_month (db : DB) (month : String) : List MonthRow :=
  let triples := monthJoin db month
  List.insertionSort monthRowOrder
    (((triples.map (fun t => t.1.name)).dedup).map (fun n =>
      let grp := triples.filter (fun t => t.1.name == n)
      ⟨n, (grp.map (fun t => t.2.2.good_qty)).sum, (grp.map (fun t => t.2.2.scrap_qty)).sum,
        ((grp.map (fun t => t.2.2.work_order_id)).dedup).length⟩))

/-! Section: `queries.machine_utilization_simple` -/

structure SimpleRow where
  machine_id : Nat
  machine_name : String
  runtime_hours : ℚ
  total_hours : ℚ
  utilization : ℚ
deriving DecidableEq

/-- Unclamped runtime hours of one operation in the SQL-side sum
`(strftime(op_end) - strftime(op_start)) / 3600.0`; an unparseable
timestamp makes `strftime` NULL, and SUM skips a NULL summand. -/
def opHoursSimple (o : Operation) : ℚ :=
  match parseInstant o.op_start, parseInstant o.op_end with
  | some s, some e => ((e - s : ℤ) : ℚ) / 3600
  | _, _ => 0

/-- `ORDER BY m.id` comparison (`m.id` is the primary key of `machines`, so
each machine row is its own `GROUP BY m.id, m.name` group). -/
def machineIdOrder (a b : Machine) : Prop := a.id ≤ b.id

instance : DecidableRel machineIdOrder :=
  fun a b => inferInstanceAs (Decidable (a.id ≤ b.id))

instance : IsTrans Machine machineIdOrder where
  trans _ _ _ h1 h2 := le_trans h1 h2

instance : IsTotal Machine machineIdOrder where
  total a b := le_total a.id b.id

/-- Model of `queries.machine_utilization_simple`. -/
def machine_utilization_simple (db : DB) (startD endD : String) :
    Option (List SimpleRow) :=
  match parseInstant startD, parseInstant endD with
  | some ps, some pe =>
    let total := max 0 (((pe - ps : ℤ) : ℚ) / 3600)
    some ((List.insertionSort machineIdOrder db.machines).map (fun m =>
      let ops := db.operations.filter
        (fun o => o.machine_id == m.id && containedOp startD endD o)
      let runtime := (ops.map opHoursSimple).sum
      ⟨m.id, m.name, roundTo 2 runtime, roundTo 2 total,
        roundTo 4 (utilizationOf runtime total)⟩))
  | _, _ => none

/-! Section: Scrap drivers: `queries.top_scrap_by_product` / `top_scrap_by_machine` -/

structure ScrapRow where
  name : String
  scrap_qty : Int
  total_qty : Int
  scrap_rate : ℚ
deriving DecidableEq

/-- Joined `(group key, operation)` pairs of `top_scrap_by_product`:
`products JOIN work_orders JOIN operations` restricted to the window. -/
def scrapJoinProduct (db : DB) (startD endD : String) : List (String × Operation) :=
  db.products.flatMap (fun p =>
    (db.work_orders.filter (fun w => w.product_id == p.id)).flatMap (fun w =>
      (db.operations.filter (fun o => o.work_order_id == w.id && containedOp startD endD o)).map
        (fun o => (p.name, o))))

/-- Joined `(group key, operation)` pairs of `top_scrap_by_machine`:
`machines JOIN operations` restricted to the window. -/
def scrapJoinMachine (db : DB) (startD endD : String) : List (String × Operation) :=
  db.machines.flatMap (fun m =>
    (db.operations.filter (fun o => o.machine_id == m.id && containedOp startD endD o)).map
      (fun o => (m.name, o)))

/-- `ORDER BY scrap_qty DESC, scrap_rate DESC` comparison. -/
def scrapOrder (a b : ScrapRow) : Prop :=
  b.scrap_qty < a.scrap_qty ∨ (a.scrap_qty = b.scrap_qty ∧ b.scrap_rate ≤ a.scrap_rate)

instance : DecidableRel scrapOrder :=
  fun a b => inferInstanceAs
    (Decidable (b.scrap_qty < a.scrap_qty ∨ (a.scrap_qty = b.scrap_qty ∧ b.scrap_rate ≤ a.scrap_rate)))

instance : IsTrans ScrapRow scrapOrder where
  trans a b c h1 h2 := by
    rcases h1 with h1 | ⟨e1, r1⟩ <;> rcases h2 with h2 | ⟨e2, r2⟩
    · exact Or.inl (lt_trans h2 h1)
    · exact Or.inl (e2 ▸ h1)
    · exact Or.inl (e1 ▸ h2)
    · exact Or.inr ⟨e1.trans e2, le_trans r2 r1⟩

instance : IsTotal ScrapRow scrapOrder where
  total a b := by
    rcases lt_trichotomy a.scrap_qty b.scrap_qty with h | h | h
    · exact Or.inr (Or.inl h)
    · rcases le_total a.scrap_rate b.scrap_rate with hq | hq
      · exact Or.inr (Or.inr ⟨h.symm, hq⟩)
      · exact Or.inl (Or.inr ⟨h, hq⟩)
    · exact Or.inl (Or.inl h)

/-- Operations of the group keyed `n`. -/
def scrapGroup (pairs : List (String × Operation)) (n : String) : List Operation :=
  (pairs.filter (fun q => q.1 == n)).map Prod.snd

/-- One aggregated output row: `SUM(scrap_qty)`, `SUM(good_qty + scrap_qty)`
and the guarded `CASE` rate. -/
def scrapRowFor (pairs : List (String × Operation)) (n : String) : ScrapRow :=
  let grp := scrapGroup pairs n
  let scrap := (grp.map (fun o => o.scrap_qty)).sum
  let total := (grp.map (fun o => o.good_qty + o.scrap_qty)).sum
  ⟨n, scrap, total, if total = 0 then 0 else (scrap : ℚ) / (total : ℚ)⟩

/-- GROUP BY name, then ORDER BY. -/
def scrapRowsOf (pairs : List (String × Operation)) : List ScrapRow :=
  List.insertionSort scrapOrder (((pairs.map Prod.fst).dedup).map (scrapRowFor pairs))

/-- Model of `queries.top_scrap_by_product`. -/
def top_scrap_by_product (db : DB) (startD endD : String) : List ScrapRow :=
  scrapRowsOf (scrapJoinProduct db startD endD)

/-- Model of `queries.top_scrap_by_machine`. -/
def top_scrap_by_machine (db : DB) (startD endD : String) : List ScrapRow :=
  scrapRowsOf (scrapJoinMachine db startD endD)

/-- Correctness properties of one scrap-driver output row against its group:
the reported sums are the group sums, the rate is within `[0, 1]`, and the
rate is zero exactly when the scrap sum is zero. -/
def scrapRowOk (pairs : List (String × Operation)) (row : ScrapRow) : Prop :=
  row.scrap_qty = ((scrapGroup pairs row.name).map (fun o => o.scrap_qty)).sum ∧
  row.total_qty = ((scrapGroup pairs row.name).map (fun o => o.good_qty)).sum +
    ((scrapGroup pairs row.name).map (fun o => o.scrap_qty)).sum ∧
  0 ≤ row.scrap_rate ∧ row.scrap_rate ≤ 1 ∧ (row.scrap_rate = 0 ↔ row.scrap_qty = 0)

/-! Section: Spec-side formulas for the adjusted-utilization refinement (C1).
These definitions follow the words of the specification (§4.1, §4.2), to be
compared with the code model above. -/

/-- Spec §4.1: `duration_hours(start, end) = max(0, (end - start) / 3600)`. -/
def specDurationHours (a b : Int) : ℚ := max 0 (((b - a : ℤ) : ℚ) / 3600)

/-- Spec §4.2: `runtime_hours` = sum of `duration_hours` over fully-contained
operations on the machine in the window. -/
def specRuntimeHours (db : DB) (m : Machine) (startD endD : String) : ℚ :=
  ((db.operations.filter (fun o => o.machine_id == m.id && containedOp startD endD o)).map
    (fun o => specDurationHours (instantOf o.op_start) (instantOf o.op_end))).sum

/-- Spec §4.2: `downtime_hours` = sum of `duration_hours` over fully-contained
downtime events on the machine in the window. -/
def specDowntimeHours (db : DB) (m : Machine) (startD endD : String) : ℚ :=
  ((db.downtime_events.filter (fun d => d.machine_id == m.id && containedDt startD endD d)).map
    (fun d => specDurationHours (instantOf d.dt_start) (instantOf d.dt_end))).sum

/-- Spec §4.2, adjusted variant, one machine's output row:
`available_hours = max(0, total_hours - downtime_hours)`,
`utilization = runtime_hours / available_hours` if positive else `0`,
hours rounded to 2 and utilization to 4 decimal places. -/
def specAdjRow (db : DB) (startD endD : String) (total : ℚ) (m : Machine) : UtilRow :=
  let runtime := specRuntimeHours db m startD endD
  let downtime := specDowntimeHours db m startD endD
  let available := max 0 (total - downtime)
  ⟨m.id, m.name, roundTo 2 runtime, roundTo 2 available, roundTo 2 downtime,
    roundTo 4 (utilizationOf runtime available)⟩

/-! Section: Concrete database states used by scenarios, witnesses and
counterexamples -/

/-- Window start `2025-01-01T00:00:00Z`. -/
def t0 : String := "2025-01-01T00:00:00Z"

/-- `2025-01-01T18:00:00Z` (18 hours in). -/
def t18 : String := "2025-01-01T18:00:00Z"

/-- `2025-01-02T00:00:00Z` (24 hours in). -/
def t24 : String := "2025-01-02T00:00:00Z"

/-- `2025-01-02T06:00:00Z` (30 hours in). -/
def t30 : String := "2025-01-02T06:00:00Z"

/-- Window end `2025-01-03T00:00:00Z` (48 hours). -/
def t48 : String := "2025-01-03T00:00:00Z"

/-- Spec §8 scenario: one machine, 18 runtime hours and 6 downtime hours in a
48-hour window. -/
def scenDB : DB :=
  ⟨[⟨1, "Widget"⟩], [⟨1, "M1"⟩],
   [⟨1, 1, 1, 100, "released", t0, t48, some 1⟩],
   [⟨1, 1, 1, t0, t18, 100, 0, none⟩],
   [⟨1, t24, t30⟩]⟩

/-- One machine whose downtime covers the whole 48-hour window, so the
adjusted available hours are exactly zero. -/
def zeroAvailDB : DB :=
  ⟨[⟨1, "Widget"⟩], [⟨1, "M1"⟩],
   [⟨1, 1, 1, 100, "released", t0, t48, some 1⟩],
   [⟨1, 1, 1, t0, t18, 100, 0, none⟩],
   [⟨1, t0, t48⟩]⟩

/-- A reversed operation: `op_end` (`t0`) before `op_start` (`t24`). -/
def revOp : Operation := ⟨1, 1, 1, t24, t0, 0, 0, none⟩

/-- One machine with a single reversed operation (`op_end` before `op_start`),
both endpoints inside the window. -/
def revDB : DB :=
  ⟨[⟨1, "Widget"⟩], [⟨1, "M1"⟩],
   [⟨1, 1, 1, 10, "released", t0, t48, some 1⟩],
   [revOp],
   []⟩

/-- A completed order whose window contains `t24`, and an in-progress order
whose window (in February) does not. -/
def wipDB : DB :=
  ⟨[⟨1, "P"⟩], [],
   [⟨1, 1, 1, 5, "completed", t0, t48, none⟩,
    ⟨2, 1, 1, 5, "in_progress", "2025-02-01T00:00:00Z", "2025-02-02T00:00:00Z", none⟩],
   [], []⟩

/-- One product and one machine, no work orders yet; base state for the
writer claims. -/
def writerDB : DB := ⟨[⟨1, "P"⟩], [⟨1, "M1"⟩], [], [], []⟩

/-- One product with a single fully-contained operation of 10 good and 0
scrap units. -/
def scrapDB : DB :=
  ⟨[⟨1, "P"⟩], [⟨1, "M1"⟩],
   [⟨1, 1, 1, 10, "completed", t0, t48, some 1⟩],
   [⟨1, 1, 1, t0, t18, 10, 0, none⟩],
   []⟩

/-- Product `A` has an operation starting in January and ending in February;
product `B` only has a February operation. -/
def monthDB : DB :=
  ⟨[⟨1, "A"⟩, ⟨2, "B"⟩], [⟨1, "M1"⟩],
   [⟨1, 1, 1, 5, "completed", "2025-01-01T00:00:00Z", "2025-03-01T00:00:00Z", none⟩,
    ⟨2, 2, 1, 5, "completed", "2025-01-01T00:00:00Z", "2025-03-01T00:00:00Z", none⟩],
   [⟨1, 1, 1, "2025-01-31T23:00:00Z", "2025-02-01T05:00:00Z", 5, 0, none⟩,
    ⟨2, 2, 1, "2025-02-01T00:00:00Z", "2025-02-01T05:00:00Z", 5, 0, none⟩],
   []⟩

/-- A single product named `X`. -/
def nameDB : DB := ⟨[⟨1, "X"⟩], [], [], [], []⟩

/-! Section: Helper lemmas -/

theorem mapMO_eq_map {α β : Type} (f : α → Option β) (g : α → β) :
    ∀ l : List α, (∀ a ∈ l, f a = some (g a)) → mapMO f l = some (l.map g) := by
  intro l h
  induction l with
  | nil => rfl
  | cons a t ih =>
    have ha := h a (List.mem_cons_self a t)
    have ht := ih (fun x hx => h x (List.mem_cons_of_mem a hx))
    simp [mapMO, ha, ht]

theorem roundTo_zero (k : Nat) : roundTo k 0 = 0 := by
  simp [roundTo]

theorem utilizationOf_zero_available (runtime : ℚ) : utilizationOf runtime 0 = 0 := by
  simp [utilizationOf]

theorem max_zero_div {x c : ℚ} (hc : 0 ≤ c) : max 0 x / c = max 0 (x / c) := by
  rw [← max_div_div_right hc 0 x, zero_div]

theorem sum_div_eq (l : List ℚ) (c : ℚ) : l.sum / c = (l.map (fun x => x / c)).sum := by
  induction l with
  | nil => simp
  | cons a t ih => simp [List.sum_cons, add_div, ih]

theorem opSecondsDal_eq (o : Operation)
    (h1 : (parseInstant o.op_start).isSome) (h2 : (parseInstant o.op_end).isSome) :
    opSecondsDal o = some (max 0 ((instantOf o.op_end - instantOf o.op_start : ℤ) : ℚ)) := by
  obtain ⟨a, ha⟩ := Option.isSome_iff_exists.mp h1
  obtain ⟨b, hb⟩ := Option.isSome_iff_exists.mp h2
  simp [opSecondsDal, ha, hb, instantOf]

theorem dtHoursDal_eq (d : DowntimeEvent)
    (h1 : (parseInstant d.dt_start).isSome) (h2 : (parseInstant d.dt_end).isSome) :
    dtHoursDal d = some (specDurationHours (instantOf d.dt_start) (instantOf d.dt_end)) := by
  obtain ⟨a, ha⟩ := Option.isSome_iff_exists.mp h1
  obtain ⟨b, hb⟩ := Option.isSome_iff_exists.mp h2
  simp only [dtHoursDal, ha, hb, specDurationHours, instantOf, Option.getD_some]
  rw [max_zero_div (by norm_num)]

theorem wipCond_iff (now : String) (w : WorkOrder) :
    wipCond now w = true ↔
      (w.status = "in_progress" ∨
        (strLe w.planned_start now ∧ strLe now w.planned_end ∧
          w.status ≠ "completed" ∧ w.status ≠ "cancelled")) := by
  simp [wipCond, not_or, and_assoc]

theorem wipCond_congr (now : String) {w w' : WorkOrder}
    (hs : w.status = w'.status) (h1 : w.planned_start = w'.planned_start)
    (h2 : w.planned_end = w'.planned_end) : wipCond now w = wipCond now w' := by
  simp [wipCond, hs, h1, h2]

theorem wipRow_mem_iff (db : DB) (now : String) (r : WipRow) :
    r ∈ list_wip db now ↔
      ∃ w ∈ db.work_orders, wipCond now w = true ∧
        ∃ p ∈ db.products, p.id = w.product_id ∧ r = mkWipRow w p := by
  rw [list_wip, (List.perm_insertionSort wipOrder _).mem_iff]
  simp only [List.mem_flatMap, List.mem_filter, List.mem_map]
  constructor
  · rintro ⟨w, ⟨hw, hcond⟩, p, hp, heq⟩
    exact ⟨w, hw, hcond, p, hp.1, (beq_iff_eq.mp hp.2), heq.symm⟩
  · rintro ⟨w, hw, hcond, p, hp, hpid, heq⟩
    exact ⟨w, ⟨hw, hcond⟩, p, ⟨hp, beq_iff_eq.mpr hpid⟩, heq.symm⟩

/-! Section: Claims -/

/-- C10: the two WIP implementations, `queries.list_wip` and
`dal.get_wip_orders`, execute the same SQL text against the same state and
return the same rows in the same order. -/
theorem c10_wip_implementations_agree :
    ∀ (db : DB) (now : String), list_wip db now = get_wip_orders db now :=
  fun _ _ => rfl

/-- C4: a work-order row is in the WIP result iff its status is
`in_progress`, or `now` lies in `[planned_start, planned_end]` (both ends
inclusive) and the status is neither `completed` nor `cancelled`; only rows
built from stored work orders appear; the result is ordered by
`planned_start` ascending. -/
theorem c4_wip_membership :
    ∀ (db : DB) (now : String),
      (∀ w ∈ db.work_orders, ∀ p ∈ db.products, p.id = w.product_id →
        (mkWipRow w p ∈ list_wip db now ↔
          (w.status = "in_progress" ∨
            (strLe w.planned_start now ∧ strLe now w.planned_end ∧
              w.status ≠ "completed" ∧ w.status ≠ "cancelled"))))
      ∧ (∀ r ∈ list_wip db now, ∃ w ∈ db.work_orders, wipCond now w = true ∧
          ∃ p ∈ db.products, p.id = w.product_id ∧ r = mkWipRow w p)
      ∧ (list_wip db now).Sorted wipOrder := by
  intro db now
  refine ⟨?_, ?_, ?_⟩
  · intro w hw p hp hpid
    rw [wipRow_mem_iff, ← wipCond_iff]
    constructor
    · rintro ⟨w', _, hcond', p', _, _, heq⟩
      have hfields := heq
      simp only [mkWipRow, WipRow.mk.injEq] at hfields
      rw [wipCond_congr now hfields.2.2.2.1 hfields.2.2.2.2.1 hfields.2.2.2.2.2.1]
      exact hcond'
    · intro hcond
      exact ⟨w, hw, hcond, p, hp, hpid, rfl⟩
  · intro r hr
    exact (wipRow_mem_iff db now r).mp hr
  · exact List.sorted_insertionSort wipOrder _

/-- C4 witness: on `wipDB` at `now = t24`, the completed order whose window
contains `t24` is absent and the in-progress order whose window excludes
`t24` is present. -/
theorem c4_wip_membership_witness :
    mkWipRow ⟨1, 1, 1, 5, "completed", t0, t48, none⟩ ⟨1, "P"⟩ ∉ list_wip wipDB t24 ∧
    mkWipRow ⟨2, 1, 1, 5, "in_progress", "2025-02-01T00:00:00Z", "2025-02-02T00:00:00Z", none⟩
        ⟨1, "P"⟩ ∈ list_wip wipDB t24 := by
  constructor
  · intro hmem
    have h := ((c4_wip_membership wipDB t24).1 ⟨1, 1, 1, 5, "completed", t0, t48, none⟩
      (by decide) ⟨1, "P"⟩ (by decide) rfl).mp hmem
    rcases h with h | ⟨_, _, h, _⟩ <;> simp at h
  · exact ((c4_wip_membership wipDB t24).1
      ⟨2, 1, 1, 5, "in_progress", "2025-02-01T00:00:00Z", "2025-02-02T00:00:00Z", none⟩
      (by decide) ⟨1, "P"⟩ (by decide) rfl).mpr (Or.inl rfl)

/-- C5: `create_work_order` rejects non-positive quantities and
`planned_start >= planned_end` with a validation error, rejects a missing
product or machine with a not-found error, and on valid input inserts one
row with status `planned` and returns the fresh identifier. -/
theorem c5_create_work_order_validation :
    ∀ (db : DB) (pid : Nat) (qty : Int) (ps pe : String) (mid : Option Nat),
      (qty ≤ 0 → (create_work_order db pid qty ps pe mid).1 =
        .error (.validationError "planned_qty must be > 0"))
      ∧ (0 < qty → strLe pe ps → (create_work_order db pid qty ps pe mid).1 =
        .error (.validationError "planned_start must be < planned_end"))
      ∧ (0 < qty → ¬ strLe pe ps → db.products.find? (fun p => p.id == pid) = none →
        (create_work_order db pid qty ps pe mid).1 =
          .error (.notFoundError "product_id not found"))
      ∧ (∀ mv, 0 < qty → ¬ strLe pe ps → (db.products.find? (fun p => p.id == pid)).isSome →
        mid = some mv → db.machines.find? (fun m => m.id == mv) = none →
        (create_work_order db pid qty ps pe mid).1 =
          .error (.notFoundError "machine_id not found"))
      ∧ (0 < qty → ¬ strLe pe ps → (db.products.find? (fun p => p.id == pid)).isSome →
        (∀ mv, mid = some mv → (db.machines.find? (fun m => m.id == mv)).isSome) →
        create_work_order db pid qty ps pe mid =
          (.ok (newWorkOrderId db),
            { db with work_orders := db.work_orders ++
                [⟨newWorkOrderId db, pid, 1, qty, "planned", ps, pe, mid⟩] })) := by
  intro db pid qty ps pe mid
  refine ⟨?_, ?_, ?_, ?_, ?_⟩
  · intro h
    simp [create_work_order, h]
  · intro h1 h2
    simp [create_work_order, not_le.mpr h1, h2]
  · intro h1 h2 hf
    simp [create_work_order, not_le.mpr h1, h2, hf]
  · intro mv h1 h2 hps hmid hmf
    obtain ⟨p, hp⟩ := Option.isSome_iff_exists.mp hps
    simp [create_work_order, not_le.mpr h1, h2, hp, hmid, hmf]
  · intro h1 h2 hps hm
    obtain ⟨p, hp⟩ := Option.isSome_iff_exists.mp hps
    cases mid with
    | none => simp [create_work_order, not_le.mpr h1, h2, hp, insertPlanned]
    | some mv =>
      obtain ⟨m, hmv⟩ := Option.isSome_iff_exists.mp (hm mv rfl)
      simp [create_work_order, not_le.mpr h1, h2, hp, hmv, insertPlanned]

/-- C5 witness: concrete instances of all five clauses on `writerDB`. -/
theorem c5_create_work_order_validation_witness :
    (create_work_order writerDB 1 0 t0 t48 none).1 =
      .error (.validationError "planned_qty must be > 0") ∧
    (create_work_order writerDB 1 7 t0 t0 none).1 =
      .error (.validationError "planned_start must be < planned_end") ∧
    (create_work_order writerDB 99 7 t0 t48 none).1 =
      .error (.notFoundError "product_id not found") ∧
    (create_work_order writerDB 1 7 t0 t48 (some 99)).1 =
      .error (.notFoundError "machine_id not found") ∧
    create_work_order writerDB 1 7 t0 t48 (some 1) =
      (.ok (newWorkOrderId writerDB),
        { writerDB with work_orders := writerDB.work_orders ++
            [⟨newWorkOrderId writerDB, 1, 1, 7, "planned", t0, t48, some 1⟩] }) := by
  refine ⟨?_, ?_, ?_, ?_, ?_⟩
  · exact (c5_create_work_order_validation writerDB 1 0 t0 t48 none).1 (by decide)
  · exact (c5_create_work_order_validation writerDB 1 7 t0 t0 none).2.1 (by decide) (by decide)
  · exact (c5_create_work_order_validation writerDB 99 7 t0 t48 none).2.2.1
      (by decide) (by decide) (by decide)
  · exact (c5_create_work_order_validation writerDB 1 7 t0 t48 (some 99)).2.2.2.1 99
      (by decide) (by decide) (by decide) rfl (by decide)
  · exact (c5_create_work_order_validation writerDB 1 7 t0 t48 (some 1)).2.2.2.2
      (by decide) (by decide) (by decide) (by decide)

/-- C6: every failing invocation of `create_work_order` leaves the datastore
unchanged; the validations run before the INSERT, and no row is committed on
a failing path. -/
theorem c6_no_partial_writes :
    ∀ (db : DB) (pid : Nat) (qty : Int) (ps pe : String) (mid : Option Nat) (e : DalError),
      (create_work_order db pid qty ps pe mid).1 = .error e →
      (create_work_order db pid qty ps pe mid).2 = db := by
  intro db pid qty ps pe mid e h
  by_cases h1 : qty ≤ 0
  · simp [create_work_order, h1]
  · by_cases h2 : strLe pe ps
    · simp [create_work_order, h1, h2]
    · cases hf : db.products.find? (fun p => p.id == pid) with
      | none => simp [create_work_order, h1, h2, hf]
      | some p =>
        cases mid with
        | none => simp [create_work_order, h1, h2, hf, insertPlanned] at h
        | some mv =>
          cases hm : db.machines.find? (fun m => m.id == mv) with
          | none => simp [create_work_order, h1, h2, hf, hm]
          | some m => simp [create_work_order, h1, h2, hf, hm, insertPlanned] at h

/-- C6 witness: a failing call on `writerDB` leaves it unchanged. -/
theorem c6_no_partial_writes_witness :
    (create_work_order writerDB 1 0 t0 t48 none).2 = writerDB :=
  c6_no_partial_writes writerDB 1 0 t0 t48 none
    (.validationError "planned_qty must be > 0") (by decide)

/-- C9: `get_product_summary` resolves the product by exact name match,
returning a not-found error (and no summary) when no product has the given
name, and a summary for the matched product otherwise. -/
theorem c9_product_summary_name_match :
    ∀ (db : DB) (pname startD endD : String),
      ((∀ p ∈ db.products, p.name ≠ pname) →
        get_product_summary db pname startD endD =
          .error (.notFoundError "Product not found"))
      ∧ (∀ p, db.products.find? (fun q => q.name == pname) = some p →
          ∃ s, get_product_summary db pname startD endD = .ok s ∧
            s.product_id = p.id ∧ s.product_name = p.name) := by
  intro db pname startD endD
  constructor
  · intro h
    have hf : db.products.find? (fun q => q.name == pname) = none := by
      rw [List.find?_eq_none]
      intro p hp
      simpa using h p hp
    simp [get_product_summary, hf]
  · intro p hp
    simp only [get_product_summary, hp]
    exact ⟨_, rfl, rfl, rfl⟩

/-- C9 witness: on a database whose only product is `X`, the name `Y` fails
with a not-found error and the name `X` resolves. -/
theorem c9_product_summary_name_match_witness :
    get_product_summary nameDB "Y" t0 t48 = .error (.notFoundError "Product not found") ∧
    ∃ s, get_product_summary nameDB "X" t0 t48 = .ok s ∧
      s.product_id = 1 ∧ s.product_name = "X" :=
  ⟨(c9_product_summary_name_match nameDB "Y" t0 t48).1 (by decide),
   (c9_product_summary_name_match nameDB "X" t0 t48).2 ⟨1, "X"⟩ (by decide)⟩

theorem monthMatch_iff (month : String) (o : Operation) (h : month.data.length = 7) :
    monthMatch month o = true ↔ o.op_start.data.take 7 = month.data := by
  rw [monthMatch, List.isPrefixOf_iff_prefix, List.prefix_iff_eq_take, h]
  exact ⟨fun hx => hx.symm, fun hx => hx.symm⟩

theorem monthJoin_mem (db : DB) (month : String) (p : Product) (w : WorkOrder) (o : Operation) :
    (p, w, o) ∈ monthJoin db month ↔
      p ∈ db.products ∧ w ∈ db.work_orders ∧ o ∈ db.operations ∧
      w.product_id = p.id ∧ o.work_order_id = w.id ∧ monthMatch month o = true := by
  simp only [monthJoin, List.mem_flatMap, List.mem_filter, List.mem_map, Prod.mk.injEq,
    Bool.and_eq_true, beq_iff_eq]
  constructor
  · rintro ⟨p', hp', w', ⟨hw', hwid⟩, o', ⟨ho', hoid, hcond⟩, rfl, rfl, rfl⟩
    exact ⟨hp', hw', ho', hwid, hoid, hcond⟩
  · rintro ⟨hp, hw, ho, hpid, hoid, hcond⟩
    exact ⟨p, hp, w, ⟨hw, hpid⟩, o, ⟨ho, hoid, hcond⟩, rfl, rfl, rfl⟩

/-- C8: `product_output_by_month` attributes an operation to the month iff
the first seven characters of its `op_start` equal the `YYYY-MM` literal,
contains exactly the products with at least one such operation (via one of
their work orders), and is ordered by product name ascending. -/
theorem c8_month_attribution :
    ∀ (db : DB) (month : String),
      month.data.length = 7 →
      (db.products.map Product.name).Nodup →
      (∀ p ∈ db.products,
        ((∃ row ∈ product_output_by_month db month, row.product_name = p.name) ↔
          ∃ w ∈ db.work_orders, w.product_id = p.id ∧
            ∃ o ∈ db.operations, o.work_order_id = w.id ∧
              o.op_start.data.take 7 = month.data))
      ∧ (product_output_by_month db month).Sorted monthRowOrder := by
  intro db month hlen hnod
  constructor
  · intro p hp
    constructor
    · rintro ⟨row, hrow, hname⟩
      simp only [product_output_by_month] at hrow
      rw [(List.perm_insertionSort monthRowOrder _).mem_iff] at hrow
      obtain ⟨n, hn, rfl⟩ := List.mem_map.mp hrow
      rw [List.mem_dedup] at hn
      obtain ⟨⟨q, w, o⟩, ht, hqn⟩ := List.mem_map.mp hn
      have hqp : q.name = p.name := by rw [hqn]; exact hname
      obtain ⟨hq, hw, ho, hpid, hoid, hcond⟩ := (monthJoin_mem db month q w o).mp ht
      have hqeq : q = p := List.inj_on_of_nodup_map hnod hq hp hqp
      subst hqeq
      exact ⟨w, hw, hpid, o, ho, hoid, (monthMatch_iff month o hlen).mp hcond⟩
    · rintro ⟨w, hw, hpid, o, ho, hoid, htake⟩
      have ht : (p, w, o) ∈ monthJoin db month :=
        (monthJoin_mem db month p w o).mpr
          ⟨hp, hw, ho, hpid, hoid, (monthMatch_iff month o hlen).mpr htake⟩
      simp only [product_output_by_month, List.mem_insertionSort, List.mem_map, List.mem_dedup]
      exact ⟨_, ⟨p.name, ⟨(p, w, o), ht, rfl⟩, rfl⟩, rfl⟩
  · exact List.sorted_insertionSort monthRowOrder _

/-- C8 witness: for month `2025-01` on `monthDB`, product `A` (whose sole
operation starts in January and ends in February) appears, while product `B`
(February operation only) does not. -/
theorem c8_month_attribution_witness :
    (∃ row ∈ product_output_by_month monthDB "2025-01", row.product_name = "A") ∧
    ¬ (∃ row ∈ product_output_by_month monthDB "2025-01", row.product_name = "B") := by
  have hA := (c8_month_attribution monthDB "2025-01" (by decide) (by decide)).1
    ⟨1, "A"⟩ (by decide)
  have hB := (c8_month_attribution monthDB "2025-01" (by decide) (by decide)).1
    ⟨2, "B"⟩ (by decide)
  exact ⟨hA.mpr (by decide), fun hex => absurd (hB.mp hex) (by decide)⟩

theorem scrapGroup_mem (pairs : List (String × Operation)) (n : String) (o : Operation)
    (h : o ∈ scrapGroup pairs n) : (n, o) ∈ pairs := by
  simp only [scrapGroup, List.mem_map, List.mem_filter] at h
  obtain ⟨⟨n', o'⟩, ⟨hmem, hn⟩, rfl⟩ := h
  have : n' = n := by simpa using hn
  subst this
  exact hmem

theorem scrapJoinProduct_snd_mem (db : DB) (startD endD : String) (q : String × Operation)
    (h : q ∈ scrapJoinProduct db startD endD) : q.2 ∈ db.operations := by
  simp only [scrapJoinProduct, List.mem_flatMap, List.mem_filter, List.mem_map] at h
  obtain ⟨p, hp, w, hw, o, ho, rfl⟩ := h
  exact ho.1

theorem scrapJoinMachine_snd_mem (db : DB) (startD endD : String) (q : String × Operation)
    (h : q ∈ scrapJoinMachine db startD endD) : q.2 ∈ db.operations := by
  simp only [scrapJoinMachine, List.mem_flatMap, List.mem_filter, List.mem_map] at h
  obtain ⟨m, hm, o, ho, rfl⟩ := h
  exact ho.1

theorem scrapRowsOf_ok (pairs : List (String × Operation))
    (hnn : ∀ q ∈ pairs, 0 ≤ q.2.good_qty ∧ 0 ≤ q.2.scrap_qty) :
    ∀ row ∈ scrapRowsOf pairs, scrapRowOk pairs row := by
  intro row hrow
  rw [scrapRowsOf, List.mem_insertionSort] at hrow
  obtain ⟨n, hn, rfl⟩ := List.mem_map.mp hrow
  have hgood : ∀ o ∈ scrapGroup pairs n, 0 ≤ o.good_qty :=
    fun o ho => (hnn (n, o) (scrapGroup_mem pairs n o ho)).1
  have hscrap : ∀ o ∈ scrapGroup pairs n, 0 ≤ o.scrap_qty :=
    fun o ho => (hnn (n, o) (scrapGroup_mem pairs n o ho)).2
  have hSnn : 0 ≤ ((scrapGroup pairs n).map (fun o => o.scrap_qty)).sum := by
    refine List.sum_nonneg ?_
    rintro x hx
    obtain ⟨o, ho, rfl⟩ := List.mem_map.mp hx
    exact hscrap o ho
  have hGnn : 0 ≤ ((scrapGroup pairs n).map (fun o => o.good_qty)).sum := by
    refine List.sum_nonneg ?_
    rintro x hx
    obtain ⟨o, ho, rfl⟩ := List.mem_map.mp hx
    exact hgood o ho
  have hT : ((scrapGroup pairs n).map (fun o => o.good_qty + o.scrap_qty)).sum =
      ((scrapGroup pairs n).map (fun o => o.good_qty)).sum +
      ((scrapGroup pairs n).map (fun o => o.scrap_qty)).sum := List.sum_map_add
  simp only [scrapRowOk, scrapRowFor]
  refine ⟨trivial, hT, ?_, ?_, ?_⟩
  · by_cases hz : ((scrapGroup pairs n).map (fun o => o.good_qty + o.scrap_qty)).sum = 0
    · simp [hz]
    · have hpos : 0 < ((scrapGroup pairs n).map (fun o => o.good_qty + o.scrap_qty)).sum := by
        omega
      simp only [hz, if_false]
      exact div_nonneg (by exact_mod_cast hSnn) (by exact_mod_cast le_of_lt hpos)
  · by_cases hz : ((scrapGroup pairs n).map (fun o => o.good_qty + o.scrap_qty)).sum = 0
    · simp [hz]
    · have hpos : 0 < ((scrapGroup pairs n).map (fun o => o.good_qty + o.scrap_qty)).sum := by
        omega
      have hle : ((scrapGroup pairs n).map (fun o => o.scrap_qty)).sum ≤
          ((scrapGroup pairs n).map (fun o => o.good_qty + o.scrap_qty)).sum := by
        omega
      simp only [hz, if_false]
      exact (div_le_one (by exact_mod_cast hpos)).mpr (by exact_mod_cast hle)
  · by_cases hz : ((scrapGroup pairs n).map (fun o => o.good_qty + o.scrap_qty)).sum = 0
    · have hS0 : ((scrapGroup pairs n).map (fun o => o.scrap_qty)).sum = 0 := by omega
      simp [hz, hS0]
    · have hpos : 0 < ((scrapGroup pairs n).map (fun o => o.good_qty + o.scrap_qty)).sum := by
        omega
      simp only [hz, if_false]
      constructor
      · intro hdiv
        rcases div_eq_zero_iff.mp hdiv with h0 | h0
        · exact_mod_cast h0
        · exact absurd (by exact_mod_cast h0) hz
      · intro hS0
        rw [hS0]
        simp

/-- C7 amended: every scrap-driver row reports `scrap_qty` and `total_qty`
as its group's sums with `total_qty` equal to the good sum plus the scrap
sum, `scrap_rate` lies in `[0, 1]`, `scrap_rate = 0` exactly when the scrap
sum is zero (not when `total_qty` is zero), and both result lists are
ordered by `scrap_qty` then `scrap_rate`, descending. -/
theorem c7_scrap_rows :
    ∀ (db : DB) (startD endD : String),
      (∀ o ∈ db.operations, 0 ≤ o.good_qty ∧ 0 ≤ o.scrap_qty) →
      (∀ row ∈ top_scrap_by_product db startD endD,
          scrapRowOk (scrapJoinProduct db startD endD) row)
      ∧ (top_scrap_by_product db startD endD).Sorted scrapOrder
      ∧ (∀ row ∈ top_scrap_by_machine db startD endD,
          scrapRowOk (scrapJoinMachine db startD endD) row)
      ∧ (top_scrap_by_machine db startD endD).Sorted scrapOrder := by
  intro db startD endD hnn
  refine ⟨scrapRowsOf_ok _ ?_, List.sorted_insertionSort scrapOrder _,
    scrapRowsOf_ok _ ?_, List.sorted_insertionSort scrapOrder _⟩
  · intro q hq
    exact hnn q.2 (scrapJoinProduct_snd_mem db startD endD q hq)
  · intro q hq
    exact hnn q.2 (scrapJoinMachine_snd_mem db startD endD q hq)

theorem top_scrap_scrapDB_eval :
    top_scrap_by_product scrapDB t0 t48 = [⟨"P", 0, 10, 0⟩] := by
  have hj : scrapJoinProduct scrapDB t0 t48 = [("P", ⟨1, 1, 1, t0, t18, 10, 0, none⟩)] := by
    decide
  have hnames : (([(("P" : String), (⟨1, 1, 1, t0, t18, 10, 0, none⟩ : Operation))].map
      Prod.fst).dedup) = ["P"] := by decide
  have hgrp : scrapGroup [("P", ⟨1, 1, 1, t0, t18, 10, 0, none⟩)] "P" =
      [⟨1, 1, 1, t0, t18, 10, 0, none⟩] := by decide
  rw [top_scrap_by_product, hj, scrapRowsOf, hnames]
  simp only [List.map_cons, List.map_nil, List.insertionSort, List.orderedInsert,
    scrapRowFor, hgrp, List.sum_cons, List.sum_nil]
  norm_num

/-- C7 counterexample: on `scrapDB` the single returned row has
`scrap_rate = 0` while `total_qty = 10 ≠ 0`, so the rate is not zero
"exactly when" the total is zero. -/
theorem c7_counterexample :
    top_scrap_by_product scrapDB t0 t48 = [⟨"P", 0, 10, 0⟩] ∧ ((10 : Int) ≠ 0) :=
  ⟨top_scrap_scrapDB_eval, by decide⟩

/-- C7 witness: the row returned on `scrapDB` satisfies the amended
properties. -/
theorem c7_scrap_rows_witness :
    scrapRowOk (scrapJoinProduct scrapDB t0 t48) ⟨"P", 0, 10, 0⟩ := by
  refine (c7_scrap_rows scrapDB t0 t48 (by decide)).1 ⟨"P", 0, 10, 0⟩ ?_
  rw [top_scrap_scrapDB_eval]
  exact List.mem_singleton.mpr rfl

theorem simple_rev_eval :
    machine_utilization_simple revDB t0 t48 = some [⟨1, "M1", -24, 48, -1 / 2⟩] := by
  have h0 : parseInstant t0 = some 1735689600 := by decide
  have h48 : parseInstant t48 = some 1735862400 := by decide
  have h24 : parseInstant t24 = some 1735776000 := by decide
  have hsort : List.insertionSort machineIdOrder revDB.machines = [⟨1, "M1"⟩] := by decide
  have hops : revDB.operations.filter
      (fun o => o.machine_id == (1 : Nat) && containedOp t0 t48 o) = [revOp] := by decide
  simp only [machine_utilization_simple, h0, h48, hsort, List.map_cons, List.map_nil,
    hops, List.sum_cons, List.sum_nil, opHoursSimple, revOp, h24]
  norm_num [roundTo, round_eq, utilizationOf, max_def]

/-- C3 counterexample: on `revDB`, whose only operation is reversed
(`op_end < op_start`) and fully contained in the window,
`machine_utilization_simple` reports `runtime_hours = -24`: the operation's
contribution is its raw negative duration, not `0`. -/
theorem c3_counterexample :
    machine_utilization_simple revDB t0 t48 = some [⟨1, "M1", -24, 48, -1 / 2⟩] ∧
    ¬ ((0 : ℚ) ≤ -24) :=
  ⟨simple_rev_eval, by norm_num⟩

/-- C3 amended: for an operation with `op_end <= op_start`,
`dal.get_machine_utilization` clamps its runtime contribution to `0`, while
`queries.machine_utilization_simple` adds the raw non-positive duration
`(op_end - op_start) / 3600`. -/
theorem c3_malformed_operation_contribution :
    ∀ (o : Operation) (a b : Int),
      parseInstant o.op_start = some a → parseInstant o.op_end = some b → b ≤ a →
      opSecondsDal o = some 0 ∧ opHoursSimple o = ((b - a : ℤ) : ℚ) / 3600 ∧
        opHoursSimple o ≤ 0 := by
  intro o a b ha hb hba
  have h1 : ((b - a : ℤ) : ℚ) ≤ 0 := by
    exact_mod_cast Int.cast_nonpos.mpr (sub_nonpos.mpr hba)
  refine ⟨?_, ?_, ?_⟩
  · simp only [opSecondsDal, ha, hb]
    rw [max_eq_left h1]
  · simp [opHoursSimple, ha, hb]
  · simp only [opHoursSimple, ha, hb]
    exact div_nonpos_of_nonpos_of_nonneg h1 (by norm_num)

/-- C3 witness: the reversed operation `revOp` contributes `0` in the
adjusted computation and `-86400 / 3600` hours in the simple one. -/
theorem c3_malformed_operation_contribution_witness :
    opSecondsDal revOp = some 0 ∧
    opHoursSimple revOp = ((1735689600 - 1735776000 : ℤ) : ℚ) / 3600 ∧
    opHoursSimple revOp ≤ 0 :=
  c3_malformed_operation_contribution revOp 1735776000 1735689600
    (by decide) (by decide) (by decide)

theorem dalMachineRow_adj_eq (db : DB) (startD endD : String) (total : ℚ) (m : Machine)
    (hop : ∀ o ∈ db.operations,
      (parseInstant o.op_start).isSome ∧ (parseInstant o.op_end).isSome)
    (hdt : ∀ d ∈ db.downtime_events,
      (parseInstant d.dt_start).isSome ∧ (parseInstant d.dt_end).isSome) :
    dalMachineRow db startD endD true total m = some (specAdjRow db startD endD total m) := by
  have h1 : mapMO opSecondsDal
      (db.operations.filter (fun o => o.machine_id == m.id && containedOp startD endD o)) =
      some ((db.operations.filter
          (fun o => o.machine_id == m.id && containedOp startD endD o)).map
        (fun o => max 0 ((instantOf o.op_end - instantOf o.op_start : ℤ) : ℚ))) := by
    apply mapMO_eq_map
    intro o ho
    have hmm2 := hop o (List.mem_filter.mp ho).1
    exact opSecondsDal_eq o hmm2.1 hmm2.2
  have h2 : mapMO dtHoursDal
      (db.downtime_events.filter
        (fun d => d.machine_id == m.id && containedDt startD endD d)) =
      some ((db.downtime_events.filter
          (fun d => d.machine_id == m.id && containedDt startD endD d)).map
        (fun d => specDurationHours (instantOf d.dt_start) (instantOf d.dt_end))) := by
    apply mapMO_eq_map
    intro d hd
    have hmm2 := hdt d (List.mem_filter.mp hd).1
    exact dtHoursDal_eq d hmm2.1 hmm2.2
  have hrt : ((db.operations.filter
      (fun o => o.machine_id == m.id && containedOp startD endD o)).map
        (fun o => max 0 ((instantOf o.op_end - instantOf o.op_start : ℤ) : ℚ))).sum / 3600 =
      specRuntimeHours db m startD endD := by
    have hfun : ((fun x : ℚ => x / 3600) ∘ fun o : Operation =>
        max 0 ((instantOf o.op_end - instantOf o.op_start : ℤ) : ℚ)) =
        fun o => specDurationHours (instantOf o.op_start) (instantOf o.op_end) := by
      funext o
      simp only [Function.comp_apply]
      rw [max_zero_div (by norm_num : (0 : ℚ) ≤ 3600)]
      rfl
    rw [specRuntimeHours, sum_div_eq, List.map_map, hfun]
  simp only [dalMachineRow, h1, h2, if_true]
  rw [hrt]
  rfl

theorem util_adjusted_spec (db : DB) (startD endD : String) (ps pe : Int)
    (hs : parseInstant startD = some ps) (he : parseInstant endD = some pe)
    (hop : ∀ o ∈ db.operations,
      (parseInstant o.op_start).isSome ∧ (parseInstant o.op_end).isSome)
    (hdt : ∀ d ∈ db.downtime_events,
      (parseInstant d.dt_start).isSome ∧ (parseInstant d.dt_end).isSome) :
    get_machine_utilization db startD endD true =
      some (db.machines.map
        (specAdjRow db startD endD (max 0 (((pe - ps : ℤ) : ℚ) / 3600)))) := by
  simp only [get_machine_utilization, hs, he]
  exact mapMO_eq_map _ _ _ (fun m _ => dalMachineRow_adj_eq db startD endD _ m hop hdt)

theorem scen_adj_eval :
    get_machine_utilization scenDB t0 t48 true = some [⟨1, "M1", 18, 42, 6, 2143 / 5000⟩] := by
  rw [util_adjusted_spec scenDB t0 t48 1735689600 1735862400 (by decide) (by decide)
    (by decide) (by decide)]
  have hops : scenDB.operations.filter
      (fun o => o.machine_id == (1 : Nat) && containedOp t0 t48 o) =
      [⟨1, 1, 1, t0, t18, 100, 0, none⟩] := by decide
  have hdts : scenDB.downtime_events.filter
      (fun d => d.machine_id == (1 : Nat) && containedDt t0 t48 d) = [⟨1, t24, t30⟩] := by
    decide
  have hi0 : instantOf t0 = 1735689600 := by decide
  have hi18 : instantOf t18 = 1735754400 := by decide
  have hi24 : instantOf t24 = 1735776000 := by decide
  have hi30 : instantOf t30 = 1735797600 := by decide
  have hms : scenDB.machines = [⟨1, "M1"⟩] := rfl
  simp only [hms, List.map_cons, List.map_nil, specAdjRow, specRuntimeHours,
    specDowntimeHours, hops, hdts, specDurationHours, hi0, hi18, hi24, hi30,
    List.sum_cons, List.sum_nil]
  norm_num [roundTo, round_eq, utilizationOf, max_def]

theorem scen_simple_eval :
    machine_utilization_simple scenDB t0 t48 = some [⟨1, "M1", 18, 48, 3 / 8⟩] := by
  have h0 : parseInstant t0 = some 1735689600 := by decide
  have h48 : parseInstant t48 = some 1735862400 := by decide
  have h18 : parseInstant t18 = some 1735754400 := by decide
  have hsort : List.insertionSort machineIdOrder scenDB.machines = [⟨1, "M1"⟩] := by decide
  have hops : scenDB.operations.filter
      (fun o => o.machine_id == (1 : Nat) && containedOp t0 t48 o) =
      [⟨1, 1, 1, t0, t18, 100, 0, none⟩] := by decide
  simp only [machine_utilization_simple, h0, h48, hsort, List.map_cons, List.map_nil,
    hops, List.sum_cons, List.sum_nil, opHoursSimple, h18]
  norm_num [roundTo, round_eq, utilizationOf, max_def]

/-- C1: with `adjusted = true`, `get_machine_utilization` returns, for every
machine in order, exactly the spec row: `downtime_hours` is the sum of the
clamped durations of that machine's fully-contained downtime events,
`available_hours = max(0, total_hours - downtime_hours)`, and `utilization`
is `runtime_hours / available_hours` (0-guarded), with the spec's rounding.
In particular the 18-runtime / 6-downtime / 48-hour scenario yields
`available_hours = 42` and utilization `0.4286` adjusted versus `0.375`
simple. -/
theorem c1_adjusted_utilization :
    (∀ (db : DB) (startD endD : String) (ps pe : Int),
      parseInstant startD = some ps → parseInstant endD = some pe →
      (∀ o ∈ db.operations,
        (parseInstant o.op_start).isSome ∧ (parseInstant o.op_end).isSome) →
      (∀ d ∈ db.downtime_events,
        (parseInstant d.dt_start).isSome ∧ (parseInstant d.dt_end).isSome) →
      get_machine_utilization db startD endD true =
        some (db.machines.map
          (specAdjRow db startD endD (max 0 (((pe - ps : ℤ) : ℚ) / 3600)))))
    ∧ get_machine_utilization scenDB t0 t48 true = some [⟨1, "M1", 18, 42, 6, 2143 / 5000⟩]
    ∧ machine_utilization_simple scenDB t0 t48 = some [⟨1, "M1", 18, 48, 3 / 8⟩] :=
  ⟨fun db startD endD ps pe hs he hop hdt => util_adjusted_spec db startD endD ps pe hs he hop hdt,
   scen_adj_eval, scen_simple_eval⟩

/-- C1 witness: the general refinement instantiated on the scenario
database. -/
theorem c1_adjusted_utilization_witness :
    get_machine_utilization scenDB t0 t48 true =
      some (scenDB.machines.map (specAdjRow scenDB t0 t48
        (max 0 (((1735862400 - 1735689600 : ℤ) : ℚ) / 3600)))) :=
  c1_adjusted_utilization.1 scenDB t0 t48 1735689600 1735862400 (by decide) (by decide)
    (by decide) (by decide)

/-- C2: in the adjusted computation, a machine whose available hours
`max(0, total - downtime)` are zero gets utilization `0`; in the simple
computation, a window with zero total hours gives every machine utilization
`0`; the division is guarded and never runs with a zero divisor. -/
theorem c2_divide_by_zero_guard :
    (∀ (db : DB) (startD endD : String) (total : ℚ) (m : Machine) (row : UtilRow),
      (∀ o ∈ db.operations,
        (parseInstant o.op_start).isSome ∧ (parseInstant o.op_end).isSome) →
      (∀ d ∈ db.downtime_events,
        (parseInstant d.dt_start).isSome ∧ (parseInstant d.dt_end).isSome) →
      dalMachineRow db startD endD true total m = some row →
      max 0 (total - specDowntimeHours db m startD endD) = 0 →
      row.utilization = 0)
    ∧ (∀ (db : DB) (startD endD : String) (ps pe : Int) (rows : List SimpleRow),
      parseInstant startD = some ps → parseInstant endD = some pe →
      max 0 (((pe - ps : ℤ) : ℚ) / 3600) = 0 →
      machine_utilization_simple db startD endD = some rows →
      ∀ row ∈ rows, row.utilization = 0) := by
  constructor
  · intro db startD endD total m row hop hdt hrow h0
    rw [dalMachineRow_adj_eq db startD endD total m hop hdt] at hrow
    have hr := Option.some.inj hrow
    rw [← hr]
    simp only [specAdjRow]
    rw [h0, utilizationOf_zero_available, roundTo_zero]
  · intro db startD endD ps pe rows hs he h0 hrows row hrow
    simp only [machine_utilization_simple, hs, he] at hrows
    rw [← Option.some.inj hrows] at hrow
    obtain ⟨m, hm, rfl⟩ := List.mem_map.mp hrow
    simp only
    rw [h0, utilizationOf_zero_available, roundTo_zero]

theorem zeroAvail_downtime_eval :
    specDowntimeHours zeroAvailDB ⟨1, "M1"⟩ t0 t48 = 48 := by
  have hdts : zeroAvailDB.downtime_events.filter
      (fun d => d.machine_id == (1 : Nat) && containedDt t0 t48 d) = [⟨1, t0, t48⟩] := by
    decide
  have hi0 : instantOf t0 = 1735689600 := by decide
  have hi48 : instantOf t48 = 1735862400 := by decide
  simp only [specDowntimeHours, hdts, List.map_cons, List.map_nil, List.sum_cons,
    List.sum_nil, specDurationHours, hi0, hi48]
  norm_num [max_def]

theorem zeroAvail_simple_eval :
    machine_utilization_simple zeroAvailDB t0 t0 = some [⟨1, "M1", 0, 0, 0⟩] := by
  have h0 : parseInstant t0 = some 1735689600 := by decide
  have hsort : List.insertionSort machineIdOrder zeroAvailDB.machines = [⟨1, "M1"⟩] := by
    decide
  have hops : zeroAvailDB.operations.filter
      (fun o => o.machine_id == (1 : Nat) && containedOp t0 t0 o) = [] := by decide
  simp only [machine_utilization_simple, h0, hsort, List.map_cons, List.map_nil,
    hops, List.sum_nil]
  norm_num [roundTo, round_eq, utilizationOf, max_def]

/-- C2 witness: on `zeroAvailDB` the downtime equals the whole 48-hour
window, and the adjusted utilization is `0`; a zero-length window makes the
simple utilization `0`. -/
theorem c2_divide_by_zero_guard_witness :
    (specAdjRow zeroAvailDB t0 t48 48 ⟨1, "M1"⟩).utilization = 0 ∧
    (⟨1, "M1", 0, 0, 0⟩ : SimpleRow).utilization = 0 := by
  constructor
  · refine c2_divide_by_zero_guard.1 zeroAvailDB t0 t48 48 ⟨1, "M1"⟩ _ (by decide) (by decide)
      (dalMachineRow_adj_eq zeroAvailDB t0 t48 48 ⟨1, "M1"⟩ (by decide) (by decide)) ?_
    rw [zeroAvail_downtime_eval]
    norm_num [max_def]
  · refine c2_divide_by_zero_guard.2 zeroAvailDB t0 t0 1735689600 1735689600
      [⟨1, "M1", 0, 0, 0⟩] (by decide) (by decide) ?_ zeroAvail_simple_eval
      ⟨1, "M1", 0, 0, 0⟩ (List.mem_singleton.mpr rfl)
    norm_num [max_def]

end Mfg
